import Mathlib

/-!
Verification development for the multi-agent customer-service workflow
(`langgraph_flow.py`, `main.py`, `mcp_server.py`).

The orchestration state machine of `langgraph_flow.py` is embedded shallowly:
* `AgentState` mirrors the `AgentState` TypedDict; the `customer_context`
  dict is modelled by `Ctx`, a record with the two protocol-reserved keys
  (`support_request`, `data_query_result`) plus an open list of other entries.
* The three LLM decision functions and the MCP tool layer are opaque
  collaborators of the code, so they enter as explicit function parameters
  (oracles): the theorems quantify over every possible behaviour of them.
* Each node function (`call_router`, `call_data_agent`, `call_support_agent`)
  returns a `StepUpdate`: the partial state-update dict the Python function
  returns.  `applyUpdate` is the LangGraph merge (overwrite each returned
  key; `intermediate_steps` is `Annotated[.., operator.add]`, so it appends).
* `runFrom` is the compiled graph of `build_workflow`: entry point `router`,
  conditional edges `route_decision` / `support_route_decision`, edge
  `data_agent -> router`, with the step ceiling (`recursion_limit = 15` in
  `main.py`) as explicit fuel.
-/

namespace MAgent

/-- Python substring test (`pat in s`) on lists of characters:
true iff `pat` occurs contiguously in the list. -/
def subOf (pat : List Char) : List Char → Bool
  | [] => pat.isEmpty
  | c :: t => pat.isPrefixOf (c :: t) || subOf pat t

/-- Python `pat in s` for strings. -/
def containsSubstr (s pat : String) : Bool := subOf pat.data s.data

/-- Python `s.upper()` (ASCII; the strings fed to it here are ASCII). -/
def pyUpper (s : String) : String := ⟨s.data.map Char.toUpper⟩

/-- Python `s.lower()` (ASCII). -/
def pyLower (s : String) : String := ⟨s.data.map Char.toLower⟩

/-- Python `s.strip()`: drop leading and trailing whitespace. -/
def pyStrip (s : String) : String :=
  ⟨((s.data.dropWhile Char.isWhitespace).reverse.dropWhile Char.isWhitespace).reverse⟩

/-- Python `s.startswith(pre)`. -/
def pyStartsWith (s pre : String) : Bool := pre.data.isPrefixOf s.data

/-- Python `s[n:]`. -/
def pyDrop (s : String) (n : Nat) : String := ⟨s.data.drop n⟩

/-- A ticket row as consumed by the composite branch of `call_data_agent`
(only its `status` field is ever read there). -/
structure Ticket where
  status : String
  deriving DecidableEq, Repr

/-- A customer row as consumed by the composite branch of `call_data_agent`
(fields `id` and `name` are read). -/
structure Customer where
  id : Nat
  name : String
  deriving DecidableEq, Repr

/-- One entry of the composed summary list built in the
`list_customers` + ticket branch of `call_data_agent`.  `shown_tickets` is
the `open_tickets` list when the query mentions "open", else the full
history (`tickets` key). -/
structure CustSummary where
  customer_id : Nat
  name : String
  total_tickets : Nat
  open_ticket_count : Nat
  shown_tickets : List Ticket
  deriving DecidableEq, Repr

/-- A structured value stored in `customer_context["data_query_result"]`:
an error dict `{"error": msg}`, the composed aggregate
`{"type": "customer_ticket_summary", "customers": [...]}`, or any other
tool payload (abstracted, since the orchestrator never inspects it). -/
inductive DataVal where
  | err (msg : String)
  | summary (customers : List CustSummary)
  | payload (v : String)
  deriving DecidableEq, Repr

/-- True exactly for the `{"error": msg}` shape. -/
def DataVal.isErr : DataVal → Bool
  | .err _ => true
  | _ => false

/-- The `customer_context` dict: the two keys with protocol meaning are
explicit `Option` fields (`none` = key absent), every other entry lives in
`extra`. -/
structure Ctx where
  support_request : Option String
  data_query_result : Option DataVal
  extra : List (String × String)
  deriving DecidableEq, Repr

/-- The argument dict of a tool call.  `customer_id` is explicit because
`call_data_agent` tests `"customer_id" in tool_args` and reads it;
other arguments are opaque entries. -/
structure ToolArgs where
  customer_id : Option Nat
  other : List (String × String)
  deriving DecidableEq, Repr

/-- One tool call from the data agent's `response.tool_calls[0]`. -/
structure ToolCall where
  name : String
  args : ToolArgs
  deriving DecidableEq, Repr

/-- The shared `AgentState` TypedDict of `langgraph_flow.py`. -/
structure AgentState where
  query : String
  next_action : String
  customer_context : Ctx
  intermediate_steps : List String
  final_response : String
  deriving DecidableEq, Repr

/-- The partial update dict a node function returns: `none` means the key is
not in the returned dict (so the old value stays); `intermediate_steps`
entries are appended by the graph. -/
structure StepUpdate where
  next_action : Option String
  customer_context : Option Ctx
  intermediate_steps : List String
  final_response : Option String
  deriving DecidableEq, Repr

/-- LangGraph's merge of a node's returned dict into the channel state:
plain keys overwrite, `intermediate_steps` (an `operator.add` channel)
appends. -/
def applyUpdate (s : AgentState) (u : StepUpdate) : AgentState :=
  { query := s.query
    next_action := u.next_action.getD s.next_action
    customer_context := u.customer_context.getD s.customer_context
    intermediate_steps := s.intermediate_steps ++ u.intermediate_steps
    final_response := u.final_response.getD s.final_response }

/-- A registered tool: argument dict to structured result, or a raised
exception (`Except.error` with the exception text). -/
abbrev ToolFn := ToolArgs → Except String DataVal

/-- `clean_output = router_output.strip().upper()` in `call_router`. -/
def routerClean (out : String) : String := pyUpper (pyStrip out)

/-- `call_router` of `langgraph_flow.py`, with the router LLM as the oracle
`soft : context -> query -> raw output string`
(`router_agent.invoke(current_context, state["query"])`). -/
def call_router (soft : Ctx → String → String) (s : AgentState) : StepUpdate :=
  -- if state.get("final_response"): return {"next_action": "COMPLETE"}
  if s.final_response ≠ "" then
    { next_action := some "COMPLETE", customer_context := none
      intermediate_steps := [], final_response := none }
  else
    match s.customer_context.support_request with
    | some request_code =>
        -- hard rule: "support_request" in current_context
        { next_action := some "DATA_AGENT", customer_context := none
          intermediate_steps :=
            ["Router hard-rule: support_request present (" ++ request_code ++
              ") → DATA_AGENT"]
          final_response := none }
    | none =>
        let router_output := soft s.customer_context s.query
        let clean_output := routerClean router_output
        let next_action :=
          if containsSubstr clean_output "DATA_AGENT" then "DATA_AGENT"
          else if containsSubstr clean_output "SUPPORT_AGENT" then "SUPPORT_AGENT"
          else if containsSubstr clean_output "ESCALATE" then "SUPPORT_AGENT"
          else if containsSubstr clean_output "COMPLETE" then "COMPLETE"
          else "SUPPORT_AGENT"
        { next_action := some next_action, customer_context := none
          intermediate_steps :=
            ["Router Decision: " ++ next_action ++ " (Raw: " ++ router_output ++ ")"]
          final_response := none }

/-- The override condition of `call_data_agent`
(`support_request and "PROFILE" in support_request.upper()` together with the
nested `tool_name != "get_customer" and "customer_id" in tool_args and
"get_customer" in tools_map`). -/
def overrideFires (tools_map : String → Option ToolFn) (support_request : String)
    (tc : ToolCall) : Bool :=
  support_request ≠ "" && containsSubstr (pyUpper support_request) "PROFILE" &&
    tc.name ≠ "get_customer" && tc.args.customer_id.isSome &&
    (tools_map "get_customer").isSome

/-- The composite condition of `call_data_agent`
(`tool_name == "list_customers" and "ticket" in user_query`). -/
def compositeFires (tool_name user_query : String) : Bool :=
  tool_name == "list_customers" && containsSubstr user_query "ticket"

/-- The plain path of `call_data_agent`: look the tool up in `tools_map`,
execute it, catch a raised exception as `{"error": "Tool execution failed:
e"}`, and report an unknown tool as `{"error": "Tool .. not found in
tools_map"}`. -/
def plainToolResult (tools_map : String → Option ToolFn) (tool_name : String)
    (tool_args : ToolArgs) : DataVal :=
  match tools_map tool_name with
  | some selected_tool =>
      match selected_tool tool_args with
      | .ok r => r
      | .error e => .err ("Tool execution failed: " ++ e)
  | none => .err ("Tool " ++ tool_name ++ " not found in tools_map")

/-- The per-customer summary loop of the composite branch: for each listed
customer fetch its history, count open tickets, and either keep only
customers with an open ticket (query mentions "open") or keep all with the
full history. -/
def composeSummary (getHist : Nat → List Ticket) (user_query : String) :
    List Customer → List CustSummary :=
  List.filterMap fun c =>
    let history := getHist c.id
    let open_tickets := history.filter fun t => t.status == "open"
    let total_tickets := history.length
    if containsSubstr user_query "open" then
      if open_tickets.isEmpty then none
      else some { customer_id := c.id, name := c.name
                  total_tickets := total_tickets
                  open_ticket_count := open_tickets.length
                  shown_tickets := open_tickets }
    else
      some { customer_id := c.id, name := c.name
             total_tickets := total_tickets
             open_ticket_count := open_tickets.length
             shown_tickets := history }

/-- `call_data_agent` of `langgraph_flow.py`.  Oracles:
`decide` is the data-agent LLM (`data_agent.invoke(...)`, reduced to the
first tool call of its answer, `none` when it makes no tool call);
`tools_map` is the module-level tool registry; `listC` and `getHist` are the
`list_customers` / `get_customer_history` entry points used by the composite
branch (`listC` may raise, modelled by `Except.error`). -/
def call_data_agent (decide : String → String → Ctx → Option ToolCall)
    (tools_map : String → Option ToolFn)
    (listC : ToolArgs → Except String (List Customer))
    (getHist : Nat → List Ticket) (s : AgentState) : StepUpdate :=
  let user_query := pyLower s.query
  let ctx := s.customer_context
  let support_request := ctx.support_request.getD ""
  match decide s.query support_request ctx with
  | none =>
      -- "Data Agent did not make a tool call." branch
      { next_action := none
        customer_context :=
          some { ctx with
                  data_query_result :=
                    some (.err "Data Agent failed to choose a tool.") }
        intermediate_steps := ["Data Agent did not make a tool call."]
        final_response := none }
  | some tc =>
      let tool_name :=
        if overrideFires tools_map support_request tc then "get_customer" else tc.name
      let tool_args :=
        if overrideFires tools_map support_request tc then
          { customer_id := tc.args.customer_id, other := [] }
        else tc.args
      if compositeFires tool_name user_query then
        match listC tool_args with
        | .error e =>
            -- `except` branch of the composite path: note it does NOT pop
            -- "support_request" (unlike the plain path below)
            let log_msg := "Error in list_customers: " ++ e
            { next_action := none
              customer_context :=
                some { ctx with data_query_result := some (.err log_msg) }
              intermediate_steps := [log_msg]
              final_response := none }
        | .ok active_or_filtered =>
            let summary := composeSummary getHist user_query active_or_filtered
            { next_action := none
              customer_context :=
                some { ctx with
                        data_query_result := some (.summary summary)
                        support_request := none }
              intermediate_steps :=
                ["Executed list_customers + get_customer_history (composed)"]
              final_response := none }
      else
        let result_data := plainToolResult tools_map tool_name tool_args
        { next_action := none
          customer_context :=
            some { ctx with
                    data_query_result := some result_data
                    support_request := none }
          intermediate_steps := ["Executed " ++ tool_name]
          final_response := none }

/-- `call_support_agent` of `langgraph_flow.py`, with the support LLM as the
oracle `decide : query -> context -> raw output`.  The code strips the raw
output, then tests `startswith("ROUTING_REQUEST:")`; on that branch
`raw_output.split(":", 1)[1]` equals `raw_output.drop 16` because the first
colon of a string starting with "ROUTING_REQUEST:" (16 characters) is the
final character of that prefix. -/
def call_support_agent (decide : String → Ctx → String) (s : AgentState) :
    StepUpdate :=
  let context := s.customer_context
  let raw_output := pyStrip (decide s.query context)
  if pyStartsWith raw_output "ROUTING_REQUEST:" then
    let request_code := pyStrip (pyDrop raw_output 16)
    { next_action := some "ROUTER"
      customer_context := some { context with support_request := some request_code }
      intermediate_steps := ["Support requested data: " ++ request_code]
      final_response := none }
  else
    { next_action := some "COMPLETE"
      customer_context := none
      intermediate_steps := ["Support Agent responded."]
      final_response := some raw_output }

/-- `route_decision` of `langgraph_flow.py`. -/
def route_decision (s : AgentState) : String :=
  if s.next_action = "DATA_AGENT" then "data_agent"
  else if s.next_action = "SUPPORT_AGENT" then "support_agent"
  else if s.next_action = "COMPLETE" then "end"
  else "support_agent"

/-- `support_route_decision` of `langgraph_flow.py`. -/
def support_route_decision (s : AgentState) : String :=
  if s.next_action = "ROUTER" then "router" else "end"

/-- The three graph nodes added by `build_workflow`. -/
inductive Node where
  | router
  | data_agent
  | support_agent
  deriving DecidableEq, Repr

/-- All opaque collaborators of the compiled workflow, gathered so a whole
run can be quantified over every behaviour of the three decision functions
and the tool layer. -/
structure Oracles where
  soft : Ctx → String → String
  dataDecide : String → String → Ctx → Option ToolCall
  tools_map : String → Option ToolFn
  listC : ToolArgs → Except String (List Customer)
  getHist : Nat → List Ticket
  supportDecide : String → Ctx → String

/-- Execute one node of the compiled graph. -/
def runNode (o : Oracles) : Node → AgentState → StepUpdate
  | .router, s => call_router o.soft s
  | .data_agent, s => call_data_agent o.dataDecide o.tools_map o.listC o.getHist s
  | .support_agent, s => call_support_agent o.supportDecide s

/-- The edges of `build_workflow`: conditional edges out of `router`
(via `route_decision`, `end` = `END`) and out of `support_agent`
(via `support_route_decision`), plus the unconditional edge
`data_agent -> router`.  `none` is `END`. -/
def nextNode : Node → AgentState → Option Node
  | .router, s =>
      if route_decision s = "data_agent" then some .data_agent
      else if route_decision s = "end" then none
      else some .support_agent
  | .data_agent, _ => some .router
  | .support_agent, s =>
      if support_route_decision s = "router" then some .router else none

/-- How a run ends: reaching `END` (COMPLETE), or being cut off by the step
ceiling (`GraphRecursionError` under `recursion_limit`). -/
inductive RunEnd where
  | completed (s : AgentState)
  | stepLimit (s : AgentState)
  deriving Repr

/-- The state a run ended in. -/
def RunEnd.state : RunEnd → AgentState
  | .completed s => s
  | .stepLimit s => s

/-- Run the compiled graph from a node, with the step ceiling as fuel: each
superstep executes one node, merges its update, and follows the edges;
exhausted fuel is the step-limit failure.  Also returns the trace of
executed steps with their post-states.  This is a total function: the
engine cannot loop forever. -/
def runFrom (o : Oracles) : Nat → Node → AgentState → RunEnd × List (Node × AgentState)
  | 0, _, s => (.stepLimit s, [])
  | fuel + 1, n, s =>
      match nextNode n (applyUpdate s (runNode o n s)) with
      | none =>
          (.completed (applyUpdate s (runNode o n s)),
            [(n, applyUpdate s (runNode o n s))])
      | some n' =>
          ((runFrom o fuel n' (applyUpdate s (runNode o n s))).1,
            (n, applyUpdate s (runNode o n s)) ::
              (runFrom o fuel n' (applyUpdate s (runNode o n s))).2)

/-- A whole run as `main.py` performs it: entry point `router`,
`recursion_limit` as fuel. -/
def runWorkflow (o : Oracles) (fuel : Nat) (s : AgentState) :
    RunEnd × List (Node × AgentState) :=
  runFrom o fuel .router s

/-- The nodes of a trace at which `final_response` changed, threading the
previous value. -/
def frChanges : String → List (Node × AgentState) → List Node
  | _, [] => []
  | prev, (n, s) :: rest =>
      (if s.final_response = prev then [] else [n]) ++
        frChanges s.final_response rest

/-! ### Concrete fixtures used by counterexamples and witnesses -/

/-- An empty `customer_context`. -/
def emptyCtx : Ctx := { support_request := none, data_query_result := none, extra := [] }

/-- A fresh initial state as `main.py` builds it. -/
def initState (q : String) : AgentState :=
  { query := q, next_action := "START", customer_context := emptyCtx
    intermediate_steps := [], final_response := "" }

/-! ### Helper lemmas (shared) -/

/-- Every branch of `call_router` returns an update without `final_response`. -/
theorem call_router_fr_none (soft : Ctx → String → String) (s : AgentState) :
    (call_router soft s).final_response = none := by
  unfold call_router
  split
  · rfl
  · cases s.customer_context.support_request <;> rfl

/-- Every branch of `call_data_agent` returns an update without
`final_response`. -/
theorem call_data_agent_fr_none (d : String → String → Ctx → Option ToolCall)
    (tm : String → Option ToolFn) (lc : ToolArgs → Except String (List Customer))
    (gh : Nat → List Ticket) (s : AgentState) :
    (call_data_agent d tm lc gh s).final_response = none := by
  unfold call_data_agent
  dsimp only
  repeat' split
  all_goals rfl

/-- `call_support_agent` writes `final_response` exactly on the non-
`ROUTING_REQUEST:` branch, where it stores the stripped raw output. -/
theorem call_support_agent_fr (d : String → Ctx → String) (s : AgentState) :
    (call_support_agent d s).final_response =
      (if pyStartsWith (pyStrip (d s.query s.customer_context)) "ROUTING_REQUEST:" then none
        else some (pyStrip (d s.query s.customer_context))) := by
  unfold call_support_agent
  dsimp only
  split <;> rfl

/-! ### C1 — hard-rule precedence -/

/-- C1 (amended): for every state whose `final_response` is empty, whose
context contains the key `support_request` and whose context holds no
`data_query_result`, `call_router` returns next_action DATA_AGENT together
with the trail entry naming the hard rule and the request code — for every
possible output of the soft decision function `soft`, which is not invoked
(the right-hand side is a constant not mentioning `soft`). -/
theorem c1_hard_rule_precedence (soft : Ctx → String → String) (s : AgentState)
    (request_code : String)
    (hfr : s.final_response = "")
    (hsr : s.customer_context.support_request = some request_code)
    (hdq : s.customer_context.data_query_result = none) :
    call_router soft s =
      { next_action := some "DATA_AGENT", customer_context := none
        intermediate_steps :=
          ["Router hard-rule: support_request present (" ++ request_code ++
            ") → DATA_AGENT"]
        final_response := none } := by
  unfold call_router
  rw [hfr, hsr]
  rfl

/-- A state with `support_request` pending, no `data_query_result`, but a
non-empty `final_response`. -/
def c1BadState : AgentState :=
  { query := "q", next_action := "ROUTER"
    customer_context :=
      { support_request := some "NEED_X", data_query_result := none, extra := [] }
    intermediate_steps := [], final_response := "done" }

/-- C1 counterexample: in a state whose context contains `support_request`
(= "NEED_X") and no `data_query_result`, but whose `final_response` is
non-empty, `call_router` returns COMPLETE, not DATA_AGENT: the
`final_response` short-circuit precedes the hard rule. -/
theorem c1_counterexample :
    (call_router (fun _ _ => "soft output") c1BadState).next_action = some "COMPLETE" ∧
      (call_router (fun _ _ => "soft output") c1BadState).next_action ≠ some "DATA_AGENT" := by
  constructor <;> decide

/-- The negotiation state of the round-trip scenario: `support_request`
pending, nothing fetched yet, no final answer. -/
def c1GoodState : AgentState :=
  { query := "Why can I not login?", next_action := "ROUTER"
    customer_context :=
      { support_request := some "NEED_CUSTOMER_PROFILE", data_query_result := none
        extra := [] }
    intermediate_steps := [], final_response := "" }

/-- C1 witness: the hard rule fires at a concrete state even though the soft
decision function answers "COMPLETE". -/
theorem c1_witness :
    call_router (fun _ _ => "COMPLETE") c1GoodState =
      { next_action := some "DATA_AGENT", customer_context := none
        intermediate_steps :=
          ["Router hard-rule: support_request present (NEED_CUSTOMER_PROFILE) → DATA_AGENT"]
        final_response := none } :=
  c1_hard_rule_precedence (fun _ _ => "COMPLETE") c1GoodState "NEED_CUSTOMER_PROFILE"
    rfl rfl rfl

/-! ### C6 — negotiation-text parsing -/

/-- A plain state in which the support agent runs. -/
def c6State : AgentState :=
  { query := "Why can I not login?", next_action := "SUPPORT_AGENT"
    customer_context := emptyCtx, intermediate_steps := [], final_response := "" }

/-- C6 counterexample: when the response-worker decision function returns
"All done! " (with a trailing blank), the stored `final_response` is the
stripped text "All done!", not the entire raw text "All done! ". -/
theorem c6_counterexample :
    (call_support_agent (fun _ _ => "All done! ") c6State).final_response =
        some "All done!" ∧
      (call_support_agent (fun _ _ => "All done! ") c6State).final_response ≠
        some "All done! " := by
  constructor <;> decide

/-- C6 (amended): for every raw string the response-worker decision function
returns, if the stripped string starts with "ROUTING_REQUEST:" then
`call_support_agent` stores the trimmed remainder (the part after the
prefix, which is `drop 16` of the stripped string) as
`context.support_request` and sets next_action ROUTER; otherwise the
stripped raw text becomes `final_response` and next_action is COMPLETE. -/
theorem c6_negotiation_parse (dec : String → Ctx → String) (s : AgentState) :
    call_support_agent dec s =
      if pyStartsWith (pyStrip (dec s.query s.customer_context)) "ROUTING_REQUEST:" then
        { next_action := some "ROUTER"
          customer_context :=
            some { s.customer_context with
                    support_request :=
                      some (pyStrip (pyDrop (pyStrip (dec s.query s.customer_context)) 16)) }
          intermediate_steps :=
            ["Support requested data: " ++
              pyStrip (pyDrop (pyStrip (dec s.query s.customer_context)) 16)]
          final_response := none }
      else
        { next_action := some "COMPLETE", customer_context := none
          intermediate_steps := ["Support Agent responded."]
          final_response := some (pyStrip (dec s.query s.customer_context)) } := rfl

/-! ### C7 — soft-output fallback and ESCALATE -/

/-- C7: whenever the router reaches its soft decision (empty
`final_response`, no `support_request`) and the cleaned soft output
contains neither "DATA_AGENT" nor "SUPPORT_AGENT", and either contains
"ESCALATE" (the ESCALATE branch) or contains no "COMPLETE" either (the
wholly unparseable case), `call_router` returns next_action SUPPORT_AGENT
rather than halting — so unparseable output defaults to SUPPORT_AGENT and
the ESCALATE branch chooses the same next_action as SUPPORT_AGENT. -/
theorem c7_soft_fallback (soft : Ctx → String → String) (s : AgentState)
    (hfr : s.final_response = "")
    (hsr : s.customer_context.support_request = none)
    (hD : containsSubstr (routerClean (soft s.customer_context s.query)) "DATA_AGENT"
      = false)
    (hS : containsSubstr (routerClean (soft s.customer_context s.query)) "SUPPORT_AGENT"
      = false)
    (hEC : containsSubstr (routerClean (soft s.customer_context s.query)) "ESCALATE"
        = true ∨
      containsSubstr (routerClean (soft s.customer_context s.query)) "COMPLETE"
        = false) :
    (call_router soft s).next_action = some "SUPPORT_AGENT" := by
  rcases hEC with hE | hC
  · simp [call_router, hfr, hsr, hD, hS, hE]
  · by_cases hE : containsSubstr (routerClean (soft s.customer_context s.query))
        "ESCALATE" = true
    · simp [call_router, hfr, hsr, hD, hS, hE]
    · simp [call_router, hfr, hsr, hD, hS, hE, hC]

/-- C7 witness: a wholly unparseable soft output at a concrete fresh state
falls back to SUPPORT_AGENT. -/
theorem c7_witness :
    (call_router (fun _ _ => "I have no idea what to do!") (initState "hello")).next_action
      = some "SUPPORT_AGENT" :=
  c7_soft_fallback (fun _ _ => "I have no idea what to do!") (initState "hello")
    rfl rfl (by decide) (by decide) (Or.inr (by decide))

/-! ### C10 — parsing priority of the soft output -/

/-- C10: on the soft path (empty `final_response`, no `support_request`),
`call_router` classifies the stripped, uppercased soft output by substring
containment in the fixed order DATA_AGENT, SUPPORT_AGENT, ESCALATE,
COMPLETE — so any output containing "DATA_AGENT" yields DATA_AGENT no
matter what else it contains, and "COMPLETE" wins only when none of the
other three tokens occurs. -/
theorem c10_parse_priority (soft : Ctx → String → String) (s : AgentState)
    (hfr : s.final_response = "")
    (hsr : s.customer_context.support_request = none) :
    (call_router soft s).next_action =
      some (if containsSubstr (routerClean (soft s.customer_context s.query))
              "DATA_AGENT" then "DATA_AGENT"
        else if containsSubstr (routerClean (soft s.customer_context s.query))
              "SUPPORT_AGENT" then "SUPPORT_AGENT"
        else if containsSubstr (routerClean (soft s.customer_context s.query))
              "ESCALATE" then "SUPPORT_AGENT"
        else if containsSubstr (routerClean (soft s.customer_context s.query))
              "COMPLETE" then "COMPLETE"
        else "SUPPORT_AGENT") := by
  unfold call_router
  rw [hfr, hsr]
  rfl

/-- C10 witness: a soft output containing "DATA_AGENT" together with both
"COMPLETE" and "SUPPORT_AGENT" still yields DATA_AGENT at a concrete
state. -/
theorem c10_witness :
    (call_router (fun _ _ => "COMPLETE or SUPPORT_AGENT or DATA_AGENT")
        (initState "hello")).next_action = some "DATA_AGENT" := by
  rw [c10_parse_priority (fun _ _ => "COMPLETE or SUPPORT_AGENT or DATA_AGENT")
    (initState "hello") rfl rfl]
  decide

/-! ### C2 — bounded termination -/

/-- A run executes at most `fuel` node steps. -/
theorem runFrom_trace_le (o : Oracles) :
    ∀ (fuel : Nat) (n : Node) (s : AgentState),
      (runFrom o fuel n s).2.length ≤ fuel := by
  intro fuel
  induction fuel with
  | zero => intro n s; simp [runFrom]
  | succ fuel ih =>
      intro n s
      simp only [runFrom]
      rcases h : nextNode n (applyUpdate s (runNode o n s)) with _ | n'
      · simp [h]
      · have := ih n' (applyUpdate s (runNode o n s))
        simp only [h, List.length_cons]
        omega

/-- C2: for every query, initial state and every behaviour of the three
decision functions and the tool layer, the run of the compiled workflow with
the driver's step ceiling of 15 either reaches the terminal COMPLETE end or
is halted by the ceiling (`runFrom` is a total function, so the engine
cannot loop forever), and it executes at most 15 node steps — in particular
at most 15 router invocations. -/
theorem c2_bounded_termination (o : Oracles) (s : AgentState) :
    ((runWorkflow o 15 s).1 = RunEnd.completed ((runWorkflow o 15 s).1.state) ∨
      (runWorkflow o 15 s).1 = RunEnd.stepLimit ((runWorkflow o 15 s).1.state)) ∧
      (runWorkflow o 15 s).2.length ≤ 15 ∧
      ((runWorkflow o 15 s).2.filter fun p => p.1 == Node.router).length ≤ 15 := by
  refine ⟨?_, runFrom_trace_le o 15 .router s, ?_⟩
  · rcases h : (runWorkflow o 15 s).1 with fs | fs
    · exact Or.inl rfl
    · exact Or.inr rfl
  · exact le_trans (List.length_filter_le _ _) (runFrom_trace_le o 15 .router s)

/-! ### C3 — negotiation clears `support_request` -/

/-- The failing input for C3: `support_request` pending (a non-PROFILE
code), the data agent picks `list_customers`, the query mentions "ticket"
(composite path), and the tool call raises. -/
def c3State : AgentState :=
  { query := "Which customers have a ticket?", next_action := "DATA_AGENT"
    customer_context :=
      { support_request := some "NEED_TICKET_SUMMARY", data_query_result := none
        extra := [] }
    intermediate_steps := [], final_response := "" }

/-- C3 (evaluation of the code at the failing input): on the composite path,
when the list tool raises, `call_data_agent` stores the structured error but
returns a context that STILL contains `support_request` — the `except`
branch of the composite path returns early without popping it, unlike the
plain path and the composite success path. -/
theorem c3_composite_error_keeps_request :
    (call_data_agent
        (fun _ _ _ =>
          some { name := "list_customers", args := { customer_id := none, other := [] } })
        (fun _ => none)
        (fun _ => Except.error "got an unexpected keyword argument")
        (fun _ => []) c3State).customer_context =
      some { support_request := some "NEED_TICKET_SUMMARY"
             data_query_result :=
               some (DataVal.err
                 "Error in list_customers: got an unexpected keyword argument")
             extra := [] } := by decide

/-! ### C5 — composite aggregation -/

/-- The stubbed customer list of the composite-aggregation property: three
customers. -/
def stubCustomers : List Customer := [⟨1, "Alice"⟩, ⟨2, "Bob"⟩, ⟨3, "Cara"⟩]

/-- The stubbed ticket histories: customer 1 has 0 open of 2 total,
customer 2 has 1 open of 1 total, customer 3 has 0 open of 0 total. -/
def stubHist : Nat → List Ticket := fun cid =>
  if cid = 1 then [{ status := "closed" }, { status := "closed" }]
  else if cid = 2 then [{ status := "open" }]
  else []

/-- On the stubbed data, a query mentioning "open" keeps exactly the one
customer with an open ticket. -/
theorem composeSummary_stub (uq : String) (ho : containsSubstr uq "open" = true) :
    composeSummary stubHist uq stubCustomers =
      [{ customer_id := 2, name := "Bob", total_tickets := 1
         open_ticket_count := 1, shown_tickets := [{ status := "open" }] }] := by
  simp [composeSummary, stubCustomers, stubHist, ho]

/-- C5: whenever the data-agent decision function chooses `list_customers`
(with any arguments) and the lowercased query contains "ticket" and "open",
`call_data_agent` with the stubbed list of 3 customers (histories of sizes
0 open / 2 total, 1 open / 1 total, 0 open / 0 total) does not execute the
tool standalone (the registry `tools_map` is arbitrary and unused) but
composes per-customer history fetches: the stored `data_query_result` is
the aggregate tagged `customer_ticket_summary` whose customers list
contains exactly the one customer having at least one open ticket. -/
theorem c5_composite_aggregation (dec : String → String → Ctx → Option ToolCall)
    (tools_map : String → Option ToolFn) (s : AgentState) (args : ToolArgs)
    (hdec : dec s.query "" s.customer_context =
      some { name := "list_customers", args := args })
    (hsr : s.customer_context.support_request = none)
    (ht : containsSubstr (pyLower s.query) "ticket" = true)
    (ho : containsSubstr (pyLower s.query) "open" = true) :
    call_data_agent dec tools_map (fun _ => Except.ok stubCustomers) stubHist s =
      { next_action := none
        customer_context :=
          some { s.customer_context with
                  support_request := none
                  data_query_result :=
                    some (DataVal.summary
                      [{ customer_id := 2, name := "Bob", total_tickets := 1
                         open_ticket_count := 1
                         shown_tickets := [{ status := "open" }] }]) }
        intermediate_steps :=
          ["Executed list_customers + get_customer_history (composed)"]
        final_response := none } := by
  simp [call_data_agent, hsr, hdec, overrideFires, compositeFires, ht,
    composeSummary_stub _ ho]

/-- C5 witness: the composite aggregation at the concrete test query of
`main.py`. -/
theorem c5_witness :
    call_data_agent
        (fun _ _ _ =>
          some { name := "list_customers", args := { customer_id := none, other := [] } })
        (fun _ => none) (fun _ => Except.ok stubCustomers) stubHist
        (initState "Show me all active customers who have open tickets") =
      { next_action := none
        customer_context :=
          some { support_request := none
                 data_query_result :=
                   some (DataVal.summary
                     [{ customer_id := 2, name := "Bob", total_tickets := 1
                        open_ticket_count := 1
                        shown_tickets := [{ status := "open" }] }])
                 extra := [] }
        intermediate_steps :=
          ["Executed list_customers + get_customer_history (composed)"]
        final_response := none } :=
  c5_composite_aggregation
    (fun _ _ _ =>
      some { name := "list_customers", args := { customer_id := none, other := [] } })
    (fun _ => none) (initState "Show me all active customers who have open tickets")
    { customer_id := none, other := [] } rfl rfl (by decide) (by decide)

/-! ### C4 — `final_response` written at most once; router short-circuit -/

/-- After one step, either the node did not write `final_response` at all,
or the node was the support agent (FINAL branch) and the run ends right
after it. -/
theorem step_final_cases (o : Oracles) (n : Node) (s : AgentState) :
    (runNode o n s).final_response = none ∨
      (n = Node.support_agent ∧
        nextNode n (applyUpdate s (runNode o n s)) = none) := by
  cases n with
  | router => exact Or.inl (call_router_fr_none o.soft s)
  | data_agent =>
      exact Or.inl (call_data_agent_fr_none o.dataDecide o.tools_map o.listC o.getHist s)
  | support_agent =>
      by_cases h : pyStartsWith (pyStrip (o.supportDecide s.query s.customer_context))
          "ROUTING_REQUEST:" = true
      · left
        simp only [runNode]
        rw [call_support_agent_fr]
        simp [h]
      · right
        refine ⟨rfl, ?_⟩
        have hna : (applyUpdate s (runNode o Node.support_agent s)).next_action
            = "COMPLETE" := by
          simp [runNode, applyUpdate, call_support_agent, h]
        simp [nextNode, support_route_decision, hna]

/-- In any run started without a final answer, `final_response` changes at
most once along the whole trace, and only at a support-agent step. -/
theorem frChanges_at_most_once (o : Oracles) :
    ∀ (fuel : Nat) (n : Node) (s : AgentState), s.final_response = "" →
      frChanges "" (runFrom o fuel n s).2 = [] ∨
        frChanges "" (runFrom o fuel n s).2 = [Node.support_agent] := by
  intro fuel
  induction fuel with
  | zero => intro n s _; exact Or.inl rfl
  | succ fuel ih =>
      intro n s hs
      rcases step_final_cases o n s with hnone | ⟨hn, hend⟩
      · have hs' : (applyUpdate s (runNode o n s)).final_response = "" := by
          simp [applyUpdate, hnone, hs]
        simp only [runFrom]
        rcases hnn : nextNode n (applyUpdate s (runNode o n s)) with _ | n'
        · left; simp [hnn, frChanges, hs']
        · have := ih n' (applyUpdate s (runNode o n s)) hs'
          simpa [hnn, frChanges, hs'] using this
      · subst hn
        simp only [runFrom, hend]
        by_cases hfr :
            (applyUpdate s (runNode o Node.support_agent s)).final_response = ""
        · left; simp [frChanges, hfr]
        · right; simp [frChanges, hfr]

/-- C4: in every run from a state with empty `final_response` (as `main.py`
starts it), `final_response` changes at most once, and only at a
support-agent step (first conjunct); for every state with non-empty
`final_response`, `call_router` returns the constant COMPLETE update, not
depending on the soft decision function or anything else in the state
(second conjunct); the support agent writes `final_response` only in its
FINAL branch — exactly when the stripped output does not start with
"ROUTING_REQUEST:" (third conjunct); and neither the data-agent step nor
the router step ever writes `final_response` (fourth and fifth
conjuncts). -/
theorem c4_final_written_once (o : Oracles) (fuel : Nat) (s : AgentState)
    (hrun : s.final_response = "")
    (soft2 : Ctx → String → String) (s2 : AgentState)
    (h2 : s2.final_response ≠ "")
    (d3 : String → Ctx → String) (s3 : AgentState)
    (d4 : String → String → Ctx → Option ToolCall) (tm4 : String → Option ToolFn)
    (lc4 : ToolArgs → Except String (List Customer)) (gh4 : Nat → List Ticket)
    (s4 : AgentState) (soft5 : Ctx → String → String) (s5 : AgentState) :
    (frChanges "" (runWorkflow o fuel s).2 = [] ∨
      frChanges "" (runWorkflow o fuel s).2 = [Node.support_agent]) ∧
      call_router soft2 s2 =
        { next_action := some "COMPLETE", customer_context := none
          intermediate_steps := [], final_response := none } ∧
      (call_support_agent d3 s3).final_response =
        (if pyStartsWith (pyStrip (d3 s3.query s3.customer_context))
            "ROUTING_REQUEST:" then none
          else some (pyStrip (d3 s3.query s3.customer_context))) ∧
      (call_data_agent d4 tm4 lc4 gh4 s4).final_response = none ∧
      (call_router soft5 s5).final_response = none := by
  refine ⟨frChanges_at_most_once o fuel .router s hrun, ?_,
    call_support_agent_fr d3 s3, call_data_agent_fr_none d4 tm4 lc4 gh4 s4,
    call_router_fr_none soft5 s5⟩
  unfold call_router
  rw [if_pos h2]

/-- A concrete oracle set: the soft router always defers to the support
agent, which answers directly. -/
def demoOracles : Oracles :=
  { soft := fun _ _ => "SUPPORT_AGENT"
    dataDecide := fun _ _ _ => none
    tools_map := fun _ => none
    listC := fun _ => Except.error "connection refused"
    getHist := fun _ => []
    supportDecide := fun _ _ => "You have no open tickets." }

/-- A state that already carries a final answer. -/
def doneState : AgentState :=
  { query := "q", next_action := "ROUTER", customer_context := emptyCtx
    intermediate_steps := [], final_response := "All set." }

/-- C4 witness: the conjunction at concrete inputs — a concrete 15-step run
from a fresh state, the router at a state with a final answer, and the
three node functions at concrete states. -/
theorem c4_witness :
    (frChanges "" (runWorkflow demoOracles 15 (initState "hi")).2 = [] ∨
      frChanges "" (runWorkflow demoOracles 15 (initState "hi")).2
        = [Node.support_agent]) ∧
      call_router (fun _ _ => "DATA_AGENT") doneState =
        { next_action := some "COMPLETE", customer_context := none
          intermediate_steps := [], final_response := none } ∧
      (call_support_agent (fun _ _ => "Hello there.") (initState "hi")).final_response =
        (if pyStartsWith (pyStrip ((fun (_ : String) (_ : Ctx) => "Hello there.")
              (initState "hi").query (initState "hi").customer_context))
            "ROUTING_REQUEST:" then none
          else some (pyStrip ((fun (_ : String) (_ : Ctx) => "Hello there.")
            (initState "hi").query (initState "hi").customer_context))) ∧
      (call_data_agent (fun _ _ _ => none) (fun _ => none)
          (fun _ => Except.error "x") (fun _ => []) (initState "hi")).final_response
        = none ∧
      (call_router (fun _ _ => "COMPLETE") (initState "hi")).final_response = none :=
  c4_final_written_once demoOracles 15 (initState "hi") rfl
    (fun _ _ => "DATA_AGENT") doneState (by decide)
    (fun _ _ => "Hello there.") (initState "hi")
    (fun _ _ _ => none) (fun _ => none) (fun _ => Except.error "x") (fun _ => [])
    (initState "hi") (fun _ _ => "COMPLETE") (initState "hi")

/-! ### C8 — tool-failure containment on the plain path -/

/-- When the plain path cannot find or successfully run the tool, the stored
result is the structured error shape. -/
theorem plainToolResult_isErr (tools_map : String → Option ToolFn)
    (tool_name : String) (tool_args : ToolArgs)
    (hfail : tools_map tool_name = none ∨
      ∃ f e, tools_map tool_name = some f ∧ f tool_args = Except.error e) :
    (plainToolResult tools_map tool_name tool_args).isErr = true := by
  rcases hfail with h | ⟨f, e, hf, he⟩
  · simp [plainToolResult, h, DataVal.isErr]
  · simp [plainToolResult, hf, he, DataVal.isErr]

/-- The plain path of `call_data_agent` as one equation: no override, not
the composite scenario — the update stores `plainToolResult` and pops
`support_request`. -/
theorem call_data_agent_plain (dec : String → String → Ctx → Option ToolCall)
    (tools_map : String → Option ToolFn)
    (lc : ToolArgs → Except String (List Customer)) (gh : Nat → List Ticket)
    (s : AgentState) (tc : ToolCall)
    (hdec : dec s.query (s.customer_context.support_request.getD "")
      s.customer_context = some tc)
    (hov : overrideFires tools_map
      (s.customer_context.support_request.getD "") tc = false)
    (hcomp : compositeFires tc.name (pyLower s.query) = false) :
    call_data_agent dec tools_map lc gh s =
      { next_action := none
        customer_context :=
          some { s.customer_context with
                  support_request := none
                  data_query_result :=
                    some (plainToolResult tools_map tc.name tc.args) }
        intermediate_steps := ["Executed " ++ tc.name]
        final_response := none } := by
  simp [call_data_agent, hdec, hov, hcomp]

/-- C8: for every selected tool call, when the override and composite
scenarios do not apply (the plain path), if the tool name is absent from
the registry or the tool raises, `call_data_agent` does not propagate the
exception: it returns the normal plain-path update — no `next_action` or
`final_response` written (so the graph edge `data_agent -> router`
continues the run), the usual trail entry, `support_request` popped — with
`context.data_query_result` set to a structured `{"error": message}`
value. -/
theorem c8_tool_failure_contained (dec : String → String → Ctx → Option ToolCall)
    (tools_map : String → Option ToolFn)
    (lc : ToolArgs → Except String (List Customer)) (gh : Nat → List Ticket)
    (s : AgentState) (tc : ToolCall)
    (hdec : dec s.query (s.customer_context.support_request.getD "")
      s.customer_context = some tc)
    (hov : overrideFires tools_map
      (s.customer_context.support_request.getD "") tc = false)
    (hcomp : compositeFires tc.name (pyLower s.query) = false)
    (hfail : tools_map tc.name = none ∨
      ∃ f e, tools_map tc.name = some f ∧ f tc.args = Except.error e) :
    (call_data_agent dec tools_map lc gh s).next_action = none ∧
      (call_data_agent dec tools_map lc gh s).final_response = none ∧
      (call_data_agent dec tools_map lc gh s).intermediate_steps
        = ["Executed " ++ tc.name] ∧
      ((call_data_agent dec tools_map lc gh s).customer_context.map
        fun c => c.data_query_result.map DataVal.isErr) = some (some true) ∧
      ((call_data_agent dec tools_map lc gh s).customer_context.map
        Ctx.support_request) = some none := by
  rw [call_data_agent_plain dec tools_map lc gh s tc hdec hov hcomp]
  simp [plainToolResult_isErr tools_map tc.name tc.args hfail]

/-- C8 witness: a tool name absent from the registry at a concrete state. -/
theorem c8_witness :
    (call_data_agent (fun _ _ _ =>
          some { name := "update_customer", args := { customer_id := some 1, other := [] } })
        (fun _ => none) (fun _ => Except.error "x") (fun _ => [])
        (initState "Update the email for customer ID 1")).next_action = none ∧
      (call_data_agent (fun _ _ _ =>
          some { name := "update_customer", args := { customer_id := some 1, other := [] } })
        (fun _ => none) (fun _ => Except.error "x") (fun _ => [])
        (initState "Update the email for customer ID 1")).final_response = none ∧
      (call_data_agent (fun _ _ _ =>
          some { name := "update_customer", args := { customer_id := some 1, other := [] } })
        (fun _ => none) (fun _ => Except.error "x") (fun _ => [])
        (initState "Update the email for customer ID 1")).intermediate_steps
        = ["Executed " ++ "update_customer"] ∧
      ((call_data_agent (fun _ _ _ =>
          some { name := "update_customer", args := { customer_id := some 1, other := [] } })
        (fun _ => none) (fun _ => Except.error "x") (fun _ => [])
        (initState "Update the email for customer ID 1")).customer_context.map
        fun c => c.data_query_result.map DataVal.isErr) = some (some true) ∧
      ((call_data_agent (fun _ _ _ =>
          some { name := "update_customer", args := { customer_id := some 1, other := [] } })
        (fun _ => none) (fun _ => Except.error "x") (fun _ => [])
        (initState "Update the email for customer ID 1")).customer_context.map
        Ctx.support_request) = some none :=
  c8_tool_failure_contained
    (fun _ _ _ =>
      some { name := "update_customer", args := { customer_id := some 1, other := [] } })
    (fun _ => none) (fun _ => Except.error "x") (fun _ => [])
    (initState "Update the email for customer ID 1")
    { name := "update_customer", args := { customer_id := some 1, other := [] } }
    rfl (by decide) (by decide) (Or.inl rfl)

/-! ### C9 — frame property of the no-tool-call branch -/

/-- C9: when the data-agent decision function makes no tool call, the
returned update leaves the context equal to the input context except that
`data_query_result` becomes the structured no-tool error — in particular an
existing `support_request` is preserved (first conjunct) — and on the next
step the router hard rule fires again: applied to the merged state, whose
`final_response` is still empty, `call_router` returns DATA_AGENT for every
soft decision function (second conjunct). -/
theorem c9_no_tool_frame (dec : String → String → Ctx → Option ToolCall)
    (tools_map : String → Option ToolFn)
    (lc : ToolArgs → Except String (List Customer)) (gh : Nat → List Ticket)
    (s : AgentState) (request_code : String) (soft : Ctx → String → String)
    (hdec : dec s.query (s.customer_context.support_request.getD "")
      s.customer_context = none)
    (hsr : s.customer_context.support_request = some request_code)
    (hfr : s.final_response = "") :
    call_data_agent dec tools_map lc gh s =
      { next_action := none
        customer_context :=
          some { s.customer_context with
                  data_query_result :=
                    some (DataVal.err "Data Agent failed to choose a tool.") }
        intermediate_steps := ["Data Agent did not make a tool call."]
        final_response := none } ∧
      (call_router soft
          (applyUpdate s (call_data_agent dec tools_map lc gh s))).next_action
        = some "DATA_AGENT" := by
  have h1 : call_data_agent dec tools_map lc gh s =
      { next_action := none
        customer_context :=
          some { s.customer_context with
                  data_query_result :=
                    some (DataVal.err "Data Agent failed to choose a tool.") }
        intermediate_steps := ["Data Agent did not make a tool call."]
        final_response := none } := by
    simp [call_data_agent, hdec]
  refine ⟨h1, ?_⟩
  rw [h1]
  simp [call_router, applyUpdate, hfr, hsr]

/-- The state of the negotiation loop at the moment the data agent fails to
pick a tool. -/
def c9State : AgentState :=
  { query := "Why can I not login?", next_action := "DATA_AGENT"
    customer_context :=
      { support_request := some "NEED_CUSTOMER_PROFILE", data_query_result := none
        extra := [("customer_id", "3")] }
    intermediate_steps := [], final_response := "" }

/-- C9 witness: the frame property and the repeated hard-rule routing at a
concrete state carrying an extra context entry. -/
theorem c9_witness :
    call_data_agent (fun _ _ _ => none) (fun _ => none) (fun _ => Except.error "x")
        (fun _ => []) c9State =
      { next_action := none
        customer_context :=
          some { support_request := some "NEED_CUSTOMER_PROFILE"
                 data_query_result :=
                   some (DataVal.err "Data Agent failed to choose a tool.")
                 extra := [("customer_id", "3")] }
        intermediate_steps := ["Data Agent did not make a tool call."]
        final_response := none } ∧
      (call_router (fun _ _ => "COMPLETE")
          (applyUpdate c9State
            (call_data_agent (fun _ _ _ => none) (fun _ => none)
              (fun _ => Except.error "x") (fun _ => []) c9State))).next_action
        = some "DATA_AGENT" :=
  c9_no_tool_frame (fun _ _ _ => none) (fun _ => none) (fun _ => Except.error "x")
    (fun _ => []) c9State "NEED_CUSTOMER_PROFILE" (fun _ _ => "COMPLETE")
    rfl rfl rfl

end MAgent
